import Mathlib

/-!
Verification of the mvg-cli transit client against its design specification.

The definitions below are a shallow embedding of the Rust sources:
  - src/src/colorize.rs       (line badge rendering, `colorize_line` and helpers)
  - src/src/main.rs           (row projection for routes / departures / notifications,
                               plus a second copy of `colorize_line`)
  - src/mvg-api/src/departures.rs   (departures request URL construction)
  - src/mvg-api/src/routes.rs       (connection data model)
  - src/mvg-api/src/notifications.rs (notification data model)

Rust `String` values are modelled as Lean `String`; `Option<T>` as `Option`;
`isize` as `Int`; `chrono::DateTime<Local>` as a calendar day plus a
millisecond-of-day offset.  Rust panics (`todo!()`, out-of-bounds indexing,
`Iterator::next().unwrap()`) are modelled with `Option`/explicit outcome types.
-/

namespace MvgCli

/-- ANSI styling as serialized by `nu_ansi_term`: `Fixed(f).on(Fixed(b)).paint(s)`
renders as `ESC [ 48;5;b ; 38;5;f m s ESC [ 0 m` (background code written before the
foreground code, exactly as `ansi_term`'s `write_prefix` does); a plain style
(`Style::new()` / `Style::default()`) renders `s` unchanged, with no prefix and
no reset suffix. -/
def paint (fg bg : Option Nat) (s : String) : String :=
  match fg, bg with
  | none, none => s
  | _, _ =>
    let codes :=
      (match bg with
        | some b => ["48;5;" ++ toString b]
        | none => []) ++
      (match fg with
        | some f => ["38;5;" ++ toString f]
        | none => [])
    "\x1b[" ++ String.intercalate ";" codes ++ "m" ++ s ++ "\x1b[0m"

/-- Model of Rust's `str::starts_with(char)`: tests the first character. -/
def startsWithChar (c : Char) (s : String) : Bool :=
  match s.data with
  | [] => false
  | a :: _ => a == c

/-- Embedding of `colorize_bg` from src/src/colorize.rs: white (255) foreground on
the given background, label padded with one leading and one trailing space. -/
def colorize_bg (line : String) (background_color : Nat) : String :=
  paint (some 255) (some background_color) (" " ++ line ++ " ")

/-- Embedding of `colorized_ubahn` from src/src/colorize.rs.  In the `"U7"` and
`"U8"` branches the source takes the first two characters of `line` via a char
iterator; since those branches are reached only when `line` is exactly that
two-character literal, the two halves are written out literally here (the
iterator itself is modelled faithfully in `colorized_ubahn_opt` below).  The
outer `Style::new().paint(total)` is the plain style, i.e. `paint none none`. -/
def colorized_ubahn (line : String) : String :=
  if line = "U1" then colorize_bg line 22
  else if line = "U2" then colorize_bg line 124
  else if line = "U3" then colorize_bg line 166
  else if line = "U4" then colorize_bg line 30
  else if line = "U5" then colorize_bg line 94
  else if line = "U6" then colorize_bg line 20
  else if line = "U7" then
    paint none none (paint (some 255) (some 22) " U" ++ paint (some 255) (some 124) "7 ")
  else if line = "U8" then
    paint none none (paint (some 255) (some 124) " U" ++ paint (some 255) (some 166) "8 ")
  else line

/-- Embedding of `colorize_sbahn` from src/src/colorize.rs.  Note that `"S8"` is
rendered with a single uniform background (yellow 226 foreground on dark 233
background) in this file. -/
def colorize_sbahn (line : String) : String :=
  if line = "S1" then colorize_bg line 73
  else if line = "S2" then colorize_bg line 34
  else if line = "S3" then colorize_bg line 53
  else if line = "S4" then colorize_bg line 196
  else if line = "S6" then colorize_bg line 29
  else if line = "S7" then colorize_bg line 204
  else if line = "S8" then paint (some 226) (some 233) (" " ++ line ++ " ")
  else if line = "S20" then colorize_bg line 203
  else line

/-- Embedding of `colorize_line` from src/src/colorize.rs: dispatch on the first
character, otherwise plain passthrough. -/
def colorize_line (line : String) : String :=
  if startsWithChar 'U' line then colorized_ubahn line
  else if startsWithChar 'S' line then colorize_sbahn line
  else line

/-- Embedding of `colorized_ubahn` from src/src/main.rs (the second copy).  The
branch bodies coincide with the copy in colorize.rs; the default branch is
`Style::default().paint(line)`, i.e. the plain style `paint none none`. -/
def colorized_ubahn_main (line : String) : String :=
  if line = "U1" then paint (some 255) (some 22) (" " ++ line ++ " ")
  else if line = "U2" then paint (some 255) (some 124) (" " ++ line ++ " ")
  else if line = "U3" then paint (some 255) (some 166) (" " ++ line ++ " ")
  else if line = "U4" then paint (some 255) (some 30) (" " ++ line ++ " ")
  else if line = "U5" then paint (some 255) (some 94) (" " ++ line ++ " ")
  else if line = "U6" then paint (some 255) (some 20) (" " ++ line ++ " ")
  else if line = "U7" then
    paint none none (paint (some 255) (some 22) " U" ++ paint (some 255) (some 124) "7 ")
  else if line = "U8" then
    paint none none (paint (some 255) (some 124) " U" ++ paint (some 255) (some 166) "8 ")
  else paint none none line

/-- Embedding of `colorize_sbahn` from src/src/main.rs (the second copy).  Unlike
the copy in colorize.rs, `"S8"` is rendered here as a two-tone split: white on
background 233 for the first character, white on background 226 for the second. -/
def colorize_sbahn_main (line : String) : String :=
  if line = "S1" then paint (some 255) (some 73) (" " ++ line ++ " ")
  else if line = "S2" then paint (some 255) (some 34) (" " ++ line ++ " ")
  else if line = "S3" then paint (some 255) (some 53) (" " ++ line ++ " ")
  else if line = "S4" then paint (some 255) (some 196) (" " ++ line ++ " ")
  else if line = "S6" then paint (some 255) (some 29) (" " ++ line ++ " ")
  else if line = "S7" then paint (some 255) (some 204) (" " ++ line ++ " ")
  else if line = "S8" then
    paint none none (paint (some 255) (some 233) " S" ++ paint (some 255) (some 226) "8 ")
  else if line = "S20" then paint (some 255) (some 203) (" " ++ line ++ " ")
  else paint none none line

/-- Embedding of `colorize_line` from src/src/main.rs (the second copy). -/
def colorize_line_main (line : String) : String :=
  if startsWithChar 'U' line then colorized_ubahn_main line
  else if startsWithChar 'S' line then colorize_sbahn_main line
  else line

/-- The sixteen line labels enumerated by the per-line color mappings of both
`colorized_ubahn` and `colorize_sbahn` (note: there is no S5 entry). -/
def mappedLabels : List String :=
  ["U1", "U2", "U3", "U4", "U5", "U6", "U7", "U8",
   "S1", "S2", "S3", "S4", "S6", "S7", "S8", "S20"]

/-- Counts the ANSI reset sequences (ESC `[0m`) in a character list.  A uniform
badge produced by a single `paint` contains exactly one reset; a two-tone badge
(two concatenated `paint`s) contains two; an unstyled passthrough contains none. -/
def countResets : List Char → Nat
  | '\x1b' :: '[' :: '0' :: 'm' :: rest => countResets rest + 1
  | _ :: rest => countResets rest
  | [] => 0

/-- Embedding of `colorized_ubahn` with the char-iterator `unwrap`s of the
`"U7"`/`"U8"` branches modelled faithfully: `line.chars().next().unwrap()` is
`line.data.get? i`, and a failing `unwrap` (a Rust panic) is `none`. -/
def colorized_ubahn_opt (line : String) : Option String :=
  if line = "U1" then some (colorize_bg line 22)
  else if line = "U2" then some (colorize_bg line 124)
  else if line = "U3" then some (colorize_bg line 166)
  else if line = "U4" then some (colorize_bg line 30)
  else if line = "U5" then some (colorize_bg line 94)
  else if line = "U6" then some (colorize_bg line 20)
  else if line = "U7" then
    match line.data.get? 0, line.data.get? 1 with
    | some lhs, some rhs =>
      some (paint none none
        (paint (some 255) (some 22) (" " ++ String.singleton lhs) ++
         paint (some 255) (some 124) (String.singleton rhs ++ " ")))
    | _, _ => none
  else if line = "U8" then
    match line.data.get? 0, line.data.get? 1 with
    | some lhs, some rhs =>
      some (paint none none
        (paint (some 255) (some 124) (" " ++ String.singleton lhs) ++
         paint (some 255) (some 166) (String.singleton rhs ++ " ")))
    | _, _ => none
  else some line

/-- The copy of `colorize_sbahn` in src/src/main.rs with the char-iterator
`unwrap`s of its two-tone `"S8"` branch modelled as `Option`. -/
def colorize_sbahn_main_opt (line : String) : Option String :=
  if line = "S1" then some (paint (some 255) (some 73) (" " ++ line ++ " "))
  else if line = "S2" then some (paint (some 255) (some 34) (" " ++ line ++ " "))
  else if line = "S3" then some (paint (some 255) (some 53) (" " ++ line ++ " "))
  else if line = "S4" then some (paint (some 255) (some 196) (" " ++ line ++ " "))
  else if line = "S6" then some (paint (some 255) (some 29) (" " ++ line ++ " "))
  else if line = "S7" then some (paint (some 255) (some 204) (" " ++ line ++ " "))
  else if line = "S8" then
    match line.data.get? 0, line.data.get? 1 with
    | some lhs, some rhs =>
      some (paint none none
        (paint (some 255) (some 233) (" " ++ String.singleton lhs) ++
         paint (some 255) (some 226) (String.singleton rhs ++ " ")))
    | _, _ => none
  else if line = "S20" then some (paint (some 255) (some 203) (" " ++ line ++ " "))
  else some (paint none none line)

/-- The `colorize_sbahn` of src/src/colorize.rs contains no `unwrap`; lifted to
`Option` unchanged for uniformity. -/
def colorize_sbahn_opt (line : String) : Option String :=
  some (colorize_sbahn line)

/-- `colorize_line` of src/src/colorize.rs with panics modelled as `none`. -/
def colorize_line_opt (line : String) : Option String :=
  if startsWithChar 'U' line then colorized_ubahn_opt line
  else if startsWithChar 'S' line then colorize_sbahn_opt line
  else some line

/-- `colorize_line` of src/src/main.rs with panics modelled as `none`. -/
def colorize_line_main_opt (line : String) : Option String :=
  if startsWithChar 'U' line then colorized_ubahn_opt line
  else if startsWithChar 'S' line then colorize_sbahn_main_opt line
  else some line

/-! ## Station resolution (src/src/main.rs, `handle_routes` / `handle_departures`) -/

/-- Modelled from the spec: the `Location` tagged union of the mvg-api crate root
(not present under src/; §3 of the spec: variants Station / Address /
PointOfInterest / Unknown, where only Station carries a `globalId` usable for
further queries, plus a display name and a place). -/
inductive Location where
  | station (global_id : String) (name : String) (place : String)
  | address
  | poi
  | unknown

/-- Outcome of the station-id selection in src/src/main.rs: either a station id,
or a process panic (with the Rust panic message). -/
inductive LookupOutcome where
  | ok (global_id : String)
  | panicked (msg : String)

/-- Embedding of the station-id selection performed by both `handle_routes`
(src/src/main.rs lines 127-136) and `handle_departures` (lines 235-239): the
code indexes `[0]` into the result list of `get_station` (panicking with an
index-out-of-bounds on an empty list) and then matches only the
`Location::Station` variant, hitting `todo!()` (a "not yet implemented" panic)
on every other variant. -/
def handle_station_lookup (results : List Location) : LookupOutcome :=
  match results with
  | [] => LookupOutcome.panicked "index out of bounds"
  | first :: _ =>
    match first with
    | Location.station gid _ _ => LookupOutcome.ok gid
    | _ => LookupOutcome.panicked "not yet implemented"

/-- Modelled from the spec: `StationResolver.resolveStationId` (§4.2) scans the
result list for the first entry whose variant is Station and returns its
identifier, failing with `NoStationFound` when the list is empty or contains no
Station variant. -/
def resolveStationId (results : List Location) : Except String String :=
  match results.findSome? (fun l =>
      match l with
      | Location.station gid _ _ => some gid
      | _ => none) with
  | some gid => Except.ok gid
  | none => Except.error "NoStationFound"

/-! ## Time handling (chrono `DateTime<Local>`) -/

/-- A `chrono::DateTime<Local>` wall-clock instant: a calendar day index and a
millisecond offset within that day (what `DateTime::time()` exposes). -/
structure LocalDateTime where
  day : Int
  msOfDay : Nat
  msOfDay_lt : msOfDay < 86400000

/-- The absolute instant in milliseconds represented by a `LocalDateTime`. -/
def instantMs (t : LocalDateTime) : Int :=
  t.day * 86400000 + (t.msOfDay : Int)

/-- Embedding of `(a.time() - b.time()).num_minutes()` from src/src/main.rs:
chrono subtracts only the time-of-day components (the calendar dates are
discarded by `.time()`) and `num_minutes` truncates toward zero (`Int.tdiv`). -/
def time_of_day_minutes_diff (a b : LocalDateTime) : Int :=
  Int.tdiv ((a.msOfDay : Int) - (b.msOfDay : Int)) 60000

/-- Modelled from the spec: `TimeCodec.minutesBetween(a, b)` (§4.1) is the
signed whole-minute difference of the two instants, truncated toward zero. -/
def minutesBetween (a b : LocalDateTime) : Int :=
  Int.tdiv (instantMs b - instantMs a) 60000

/-- Two-digit zero-padded rendering of an hour or minute field (`%H` / `%M`). -/
def pad2 (n : Nat) : String :=
  if n < 10 then "0" ++ toString n else toString n

/-- chrono `format("%H:%M")` on the time-of-day component. -/
def formatHM (t : LocalDateTime) : String :=
  pad2 (t.msOfDay / 3600000) ++ ":" ++ pad2 (t.msOfDay / 60000 % 60)

/-! ## Route data model (src/mvg-api/src/routes.rs) and projection
(src/src/main.rs, `handle_routes`) -/

/-- Embedding of the `Station` struct of src/mvg-api/src/routes.rs (a stop of a
connection part).  Only the fields read by the projection in src/src/main.rs are
modelled; the coordinate, platform, id and diagnostic fields are omitted. -/
structure Stop where
  name : String
  planned_departure : LocalDateTime
  departure_delay_in_minutes : Option Int

/-- Embedding of the `Line` struct of src/mvg-api/src/routes.rs; only `label` is
read by the projection, the transport type / destination / network fields are
omitted. -/
structure Line where
  label : String

/-- Embedding of `ConnectionPart` of src/mvg-api/src/routes.rs; the polyline,
path-description, occupancy and flag fields (not read by the projection) are
omitted. -/
structure ConnectionPart where
  from' : Stop
  to' : Stop
  line : Line
  messages : List String

/-- Embedding of `Connection` of src/mvg-api/src/routes.rs: `parts` is a plain
`Vec` and the serde decoder imposes no non-emptiness validation, so the empty
list inhabits the decoded type.  `unique_id` and `ticketing_information` are
omitted. -/
structure Connection where
  parts : List ConnectionPart

/-- Modelled from the spec: §7 requires a connection decoded with zero parts to
be rejected as a `DecodeFailure` instead of reaching the projection. -/
def decode_connection_checked (parts : List ConnectionPart) : Except String Connection :=
  if parts.isEmpty then Except.error "DecodeFailure" else Except.ok ⟨parts⟩

/-- Embedding of the delay column of both `handle_routes` (src/src/main.rs lines
184-187) and `handle_departures` (lines 248-251): a present, non-zero delay is
rendered with Rust's `isize::to_string` (signed decimal, here `toString` on
`Int`), everything else as a dash. -/
def delay_label (delay : Option Int) : String :=
  match delay with
  | some d => if d ≠ 0 then toString d else "-"
  | none => "-"

/-- The route table row built by `handle_routes` (src/src/main.rs lines 199-206). -/
structure RouteTableEntry where
  time : String
  in_minutes : String
  duration : String
  lines : String
  delay : String
  info : String

/-- Embedding of the per-connection projection of `handle_routes`
(src/src/main.rs lines 161-207).  The source indexes `connection.parts[0]` and
`connection.parts[connection.parts.len() - 1]`, which panics on an empty
`parts`; the panic is modelled as `none`.  `now` stands for `Local::now()`. -/
def route_table_entry (now : LocalDateTime) (connection : Connection) : Option RouteTableEntry :=
  match connection.parts.get? 0, connection.parts.get? (connection.parts.length - 1) with
  | some firstPart, some lastPart =>
    let origin := firstPart.from'
    let destination := lastPart.to'
    some
      { time := formatHM origin.planned_departure ++ " - " ++
          formatHM destination.planned_departure
        in_minutes := toString (time_of_day_minutes_diff origin.planned_departure now)
        duration := toString
          (time_of_day_minutes_diff destination.planned_departure origin.planned_departure)
        lines := String.intercalate ", "
          (connection.parts.map (fun p => colorize_line_main p.line.label))
        delay := delay_label origin.departure_delay_in_minutes
        info := String.intercalate "\n"
          (connection.parts.foldl (fun acc p => acc ++ p.messages) []) }
  | _, _ => none

/-! ## Departures request (src/mvg-api/src/departures.rs, `get_departures`) -/

/-- Embedding of the URL built by `get_departures` (src/mvg-api/src/departures.rs
lines 33-37), including the misspelled `offestInMinutes` query key exactly as it
appears in the source format string. -/
def departures_url (station_id : String) (offset_in_min : Nat) : String :=
  "https://www.mvg.de/api/bgw-pt/v3/departures?globalId=" ++ station_id ++
  "&limit=10&offestInMinutes=" ++ toString offset_in_min ++
  "&transportTypes=UBAHN,REGIONAL_BUS,BUS,TRAM,SBAHN,SCHIFF"

/-! ## Notification rows and filtering (src/src/main.rs, `handle_notifications`) -/

/-- The notification table row built by `handle_notifications` (src/src/main.rs
lines 278-285): the comma-joined affected-lines string, the validity window and
the details text. -/
structure NotificationsTableEntry where
  lines : String
  duration : String
  details : String
deriving DecidableEq

/-- Model of Rust's `str::contains(&str)`: the needle occurs as a contiguous
substring of the haystack (the empty needle matches everywhere). -/
def substringOf (needle hay : List Char) : Bool :=
  if needle.isPrefixOf hay then true
  else
    match hay with
    | [] => false
    | _ :: t => substringOf needle t

/-- Model of Rust's `str::to_lowercase`.  The Rust function is Unicode-aware;
ASCII lowercasing (all that line labels and filters exercise) is modelled. -/
def toLowerString (s : String) : String :=
  ⟨s.data.map Char.toLower⟩

/-- Embedding of the filter step of `handle_notifications` (src/src/main.rs lines
319-325): with a filter string, keep the rows whose rendered `lines` field
contains the lowercased needle as a substring of its lowercased self; with no
filter, keep every row. -/
def filter_notifications (filter : Option String) (entries : List NotificationsTableEntry) :
    List NotificationsTableEntry :=
  match filter with
  | some f => entries.filter (fun entry =>
      substringOf (toLowerString f).data (toLowerString entry.lines).data)
  | none => entries

/-! ## Concrete instants and connections used by the claim theorems -/

/-- Origin stop planned departure 23:50:00 on day 0. -/
def cross_midnight_origin : LocalDateTime := ⟨0, 85800000, by decide⟩

/-- Destination stop planned departure 00:05:00 on day 1 (fifteen minutes after
`cross_midnight_origin`). -/
def cross_midnight_destination : LocalDateTime := ⟨1, 300000, by decide⟩

/-- A one-part connection departing at 23:50 and arriving (next planned
departure instant) at 00:05 the next day. -/
def cross_midnight_connection : Connection :=
  ⟨[{ from' := ⟨"Marienplatz", cross_midnight_origin, none⟩
      to' := ⟨"Flughafen", cross_midnight_destination, none⟩
      line := ⟨"S8"⟩
      messages := [] }]⟩

/-- An arbitrary `Local::now()` instant (noon on day 0), used where the
projection needs the current time. -/
def sample_now : LocalDateTime := ⟨0, 43200000, by decide⟩

/-! ## Helper lemmas -/

/-- Above the hexadecimal range, `Nat.digitChar` falls through to the asterisk. -/
theorem digitChar_of_ge_sixteen (n : Nat) (h : 16 ≤ n) : Nat.digitChar n = '*' := by
  simp only [Nat.digitChar]
  repeat rw [if_neg (by omega)]

/-- Digits produced by `Nat.digitChar` are never a minus sign. -/
theorem digitChar_ne_hyphen (n : Nat) : Nat.digitChar n ≠ '-' := by
  rcases Nat.lt_or_ge n 16 with hlt | hge
  · interval_cases n <;> decide
  · rw [digitChar_of_ge_sixteen n hge]; decide

/-- `Nat.toDigitsCore` only ever adds digit characters to its accumulator. -/
theorem toDigitsCore_not_hyphen (b : Nat) :
    ∀ (fuel n : Nat) (ds : List Char), '-' ∉ ds → '-' ∉ Nat.toDigitsCore b fuel n ds := by
  intro fuel
  induction fuel with
  | zero => intro n ds h; simpa [Nat.toDigitsCore] using h
  | succ f ih =>
    intro n ds h
    have hd : '-' ∉ (n % b).digitChar :: ds := by
      intro hm
      rcases List.mem_cons.mp hm with h1 | h2
      · exact digitChar_ne_hyphen _ h1.symm
      · exact h h2
    simp only [Nat.toDigitsCore]
    split
    · exact hd
    · exact ih _ _ hd

/-- `Nat.toDigitsCore` never shrinks its accumulator. -/
theorem toDigitsCore_length_le (b : Nat) :
    ∀ (fuel n : Nat) (ds : List Char), ds.length ≤ (Nat.toDigitsCore b fuel n ds).length := by
  intro fuel
  induction fuel with
  | zero => intro n ds; simp [Nat.toDigitsCore]
  | succ f ih =>
    intro n ds
    simp only [Nat.toDigitsCore]
    split
    · simp
    · exact le_trans (by simp) (ih _ ((n % b).digitChar :: ds))

/-- With at least one unit of fuel, `Nat.toDigitsCore` emits at least one digit. -/
theorem toDigitsCore_length_succ (b f n : Nat) (ds : List Char) :
    ds.length + 1 ≤ (Nat.toDigitsCore b (f + 1) n ds).length := by
  simp only [Nat.toDigitsCore]
  split
  · simp
  · exact le_trans (by simp) (toDigitsCore_length_le b f (n / b) ((n % b).digitChar :: ds))

/-- The decimal rendering of a natural number contains no minus sign. -/
theorem hyphen_not_mem_natRepr (n : Nat) : '-' ∉ (Nat.repr n).data := by
  have h : '-' ∉ Nat.toDigits 10 n :=
    toDigitsCore_not_hyphen 10 (n + 1) n [] (by simp)
  simpa [Nat.repr, Nat.toDigits, List.asString] using h

/-- The decimal rendering of a natural number is nonempty. -/
theorem natRepr_data_ne_nil (n : Nat) : (Nat.repr n).data ≠ [] := by
  intro h
  have hlen := toDigitsCore_length_succ 10 n n []
  have hzero : (Nat.toDigitsCore 10 (n + 1) n []).length = 0 := by
    have hd : (Nat.repr n).data = Nat.toDigitsCore 10 (n + 1) n [] := rfl
    rw [hd] at h
    simp [h]
  omega

/-- Rust's `isize::to_string` (Lean: `toString` on `Int`) of a nonzero integer is
never the bare dash string. -/
theorem toString_int_ne_dash (z : Int) : toString z ≠ "-" := by
  show Int.repr z ≠ "-"
  cases z with
  | ofNat n =>
    intro h
    have hdata : (Nat.repr n).data = ['-'] := by
      simpa [Int.repr] using congrArg String.data h
    exact hyphen_not_mem_natRepr n (hdata ▸ List.mem_singleton_self '-')
  | negSucc m =>
    intro h
    have hdata : '-' :: (Nat.repr (m + 1)).data = ['-'] := by
      simpa [Int.repr, String.data_append] using congrArg String.data h
    injection hdata with _ htail
    exact natRepr_data_ne_nil (m + 1) htail

/-- The empty needle is a substring of every haystack. -/
theorem substringOf_nil (hay : List Char) : substringOf [] hay = true := by
  unfold substringOf
  cases hay <;> simp

/-- The two copies of `colorized_ubahn` render every label identically. -/
theorem colorized_ubahn_eq_main (l : String) : colorized_ubahn l = colorized_ubahn_main l := by
  simp only [colorized_ubahn, colorized_ubahn_main, colorize_bg]
  split_ifs <;> rfl

/-- The two copies of `colorize_sbahn` agree on every label except `"S8"`
(with the negated condition in context, `split_ifs` resolves the `"S8"` branch
away by itself). -/
theorem colorize_sbahn_eq_main (l : String) (h : l ≠ "S8") :
    colorize_sbahn l = colorize_sbahn_main l := by
  simp only [colorize_sbahn, colorize_sbahn_main, colorize_bg]
  split_ifs <;> rfl

/-- `colorized_ubahn` passes every label outside the mapping through unstyled. -/
theorem colorized_ubahn_unmapped (l : String) (h : l ∉ mappedLabels) :
    colorized_ubahn l = l := by
  simp only [colorized_ubahn]
  split_ifs <;> first
    | rfl
    | (rename_i heq; subst heq; exact absurd (by decide) h)

/-- The main.rs copy of `colorized_ubahn` passes every label outside the mapping
through unstyled. -/
theorem colorized_ubahn_main_unmapped (l : String) (h : l ∉ mappedLabels) :
    colorized_ubahn_main l = l := by
  simp only [colorized_ubahn_main]
  split_ifs <;> first
    | rfl
    | (rename_i heq; subst heq; exact absurd (by decide) h)

/-- `colorize_sbahn` passes every label outside the mapping through unstyled. -/
theorem colorize_sbahn_unmapped (l : String) (h : l ∉ mappedLabels) :
    colorize_sbahn l = l := by
  simp only [colorize_sbahn]
  split_ifs <;> first
    | rfl
    | (rename_i heq; subst heq; exact absurd (by decide) h)

/-- The main.rs copy of `colorize_sbahn` passes every label outside the mapping
through unstyled. -/
theorem colorize_sbahn_main_unmapped (l : String) (h : l ∉ mappedLabels) :
    colorize_sbahn_main l = l := by
  simp only [colorize_sbahn_main]
  split_ifs <;> first
    | rfl
    | (rename_i heq; subst heq; exact absurd (by decide) h)

/-- The option-instrumented `colorized_ubahn` never fails: every `unwrap` sits in
a branch whose label has two characters. -/
theorem colorized_ubahn_opt_eq (l : String) :
    colorized_ubahn_opt l = some (colorized_ubahn l) := by
  simp only [colorized_ubahn_opt, colorized_ubahn]
  split_ifs <;> first
    | rfl
    | (rename_i heq; subst heq; rfl)

/-- The option-instrumented `colorize_sbahn` of colorize.rs never fails (it has
no `unwrap` at all). -/
theorem colorize_sbahn_opt_eq (l : String) :
    colorize_sbahn_opt l = some (colorize_sbahn l) := rfl

/-- The option-instrumented main.rs `colorize_sbahn` never fails: its only
`unwrap`s sit in the `"S8"` branch. -/
theorem colorize_sbahn_main_opt_eq (l : String) :
    colorize_sbahn_main_opt l = some (colorize_sbahn_main l) := by
  simp only [colorize_sbahn_main_opt, colorize_sbahn_main]
  split_ifs <;> first
    | rfl
    | (rename_i heq; subst heq; rfl)

/-! ## Claim theorems -/

/-- C1: the station resolution of src/src/main.rs does not scan for the first
Station variant and does not fail with `NoStationFound`.  On a result list whose
first entry is a non-Station variant but which contains a Station later, the
code hits the `todo!()` panic instead of returning that Station's identifier
(which the spec-modelled `resolveStationId` does return), and on an empty result
list it panics with an index-out-of-bounds instead of failing with
`NoStationFound`. -/
theorem handle_station_lookup_divergence :
    handle_station_lookup
        [Location.address, Location.station "de:09162:2" "Marienplatz" "Muenchen"] =
      LookupOutcome.panicked "not yet implemented" ∧
    resolveStationId
        [Location.address, Location.station "de:09162:2" "Marienplatz" "Muenchen"] =
      Except.ok "de:09162:2" ∧
    handle_station_lookup [] = LookupOutcome.panicked "index out of bounds" ∧
    resolveStationId [] = Except.error "NoStationFound" :=
  ⟨rfl, rfl, rfl, rfl⟩

/-- C2: for every departure (and route origin stop), the rendered delay label is
the dash exactly when the delay field is absent or zero, and otherwise it is the
exact signed decimal string of the delay value. -/
theorem delay_label_dash_iff :
    (∀ d : Option Int, delay_label d = "-" ↔ (d = none ∨ d = some 0)) ∧
    (∀ z : Int, z ≠ 0 → delay_label (some z) = toString z) := by
  constructor
  · intro d
    cases d with
    | none => simp [delay_label]
    | some z =>
      by_cases hz : z = 0
      · subst hz; simp [delay_label]
      · simp only [delay_label, if_pos hz, Option.some.injEq]
        constructor
        · intro h; exact absurd h (toString_int_ne_dash z)
        · rintro (h | h)
          · exact absurd h (by simp)
          · exact absurd h hz
  · intro z hz
    simp [delay_label, hz]

/-- Witness for C2 at concrete inputs: absent and zero delays collapse to the
dash, a positive and a negative delay render as their signed decimals. -/
theorem delay_label_dash_iff_witness :
    delay_label none = "-" ∧ delay_label (some 0) = "-" ∧
    delay_label (some 5) = "5" ∧ delay_label (some (-3)) = "-3" := by
  refine ⟨(delay_label_dash_iff.1 none).mpr (Or.inl rfl),
    (delay_label_dash_iff.1 (some 0)).mpr (Or.inr rfl), ?_, ?_⟩
  · exact (delay_label_dash_iff.2 5 (by decide)).trans rfl
  · exact (delay_label_dash_iff.2 (-3) (by decide)).trans rfl

/-- C3: the duration computed by `handle_routes` diverges from
`minutesBetween` on itineraries that cross midnight.  The destination instant is
fifteen minutes after the origin instant, yet the code's time-of-day subtraction
yields -1425 minutes (and the rendered duration column is "-1425"), while the
spec's `minutesBetween` yields the non-negative 15. -/
theorem route_duration_crosses_midnight :
    instantMs cross_midnight_origin ≤ instantMs cross_midnight_destination ∧
    time_of_day_minutes_diff cross_midnight_destination cross_midnight_origin = -1425 ∧
    minutesBetween cross_midnight_origin cross_midnight_destination = 15 ∧
    (route_table_entry cross_midnight_origin cross_midnight_connection).map
        RouteTableEntry.duration = some "-1425" := by
  refine ⟨by decide, by decide, by decide, ?_⟩
  rfl

/-- C4 counterexample: it is false that the labels rendered two-tone by
`colorize_line` (src/src/colorize.rs) are exactly one underground line and one
suburban line.  Both `"U7"` and `"U8"` are rendered two-tone (two ANSI resets),
so no pair consisting of one U-prefixed and one S-prefixed label can cover all
two-tone labels. -/
theorem two_tone_claim_false :
    ¬ ∃ u s : String, u ∈ mappedLabels ∧ s ∈ mappedLabels ∧
        startsWithChar 'U' u = true ∧ startsWithChar 'S' s = true ∧
        countResets (colorize_line u).data = 2 ∧ countResets (colorize_line s).data = 2 ∧
        ∀ l ∈ mappedLabels, countResets (colorize_line l).data = 2 → l = u ∨ l = s := by
  rintro ⟨u, s, -, -, -, hS, -, -, hall⟩
  have h7 := hall "U7" (by decide) (by decide)
  have h8 := hall "U8" (by decide) (by decide)
  rcases h7 with h7 | h7
  · rcases h8 with h8 | h8
    · exact absurd (h8.trans h7.symm) (by decide)
    · rw [← h8] at hS
      exact absurd hS (by decide)
  · rw [← h7] at hS
    exact absurd hS (by decide)

/-- C4 (amended): in src/src/colorize.rs exactly two labels are rendered
two-tone, `"U7"` and `"U8"`, both underground; in the src/src/main.rs copy the
two-tone labels are `"U7"`, `"U8"` and `"S8"`.  Every other mapped label is
rendered with a single uniform background across the whole label, padded with
one leading and one trailing space. -/
theorem two_tone_labels_exact :
    mappedLabels.filter (fun l => countResets (colorize_line l).data == 2) = ["U7", "U8"] ∧
    mappedLabels.filter (fun l => countResets (colorize_line_main l).data == 2) =
      ["U7", "U8", "S8"] ∧
    (∀ l ∈ mappedLabels, countResets (colorize_line l).data ≠ 2 →
      ∃ fg bg, colorize_line l = paint (some fg) (some bg) (" " ++ l ++ " ")) := by
  refine ⟨by decide, by decide, ?_⟩
  intro l hl
  fin_cases hl <;> intro hne
  · exact ⟨255, 22, rfl⟩
  · exact ⟨255, 124, rfl⟩
  · exact ⟨255, 166, rfl⟩
  · exact ⟨255, 30, rfl⟩
  · exact ⟨255, 94, rfl⟩
  · exact ⟨255, 20, rfl⟩
  · exact absurd (by decide) hne
  · exact absurd (by decide) hne
  · exact ⟨255, 73, rfl⟩
  · exact ⟨255, 34, rfl⟩
  · exact ⟨255, 53, rfl⟩
  · exact ⟨255, 196, rfl⟩
  · exact ⟨255, 29, rfl⟩
  · exact ⟨255, 204, rfl⟩
  · exact ⟨226, 233, rfl⟩
  · exact ⟨255, 203, rfl⟩

/-- Witness for C4 (amended) at the concrete label `"S8"`: in colorize.rs it is
a uniform single-background badge. -/
theorem two_tone_labels_exact_witness :
    ∃ fg bg, colorize_line "S8" = paint (some fg) (some bg) (" " ++ "S8" ++ " ") :=
  two_tone_labels_exact.2.2 "S8" (by decide) (by decide)

/-- C5: every label outside the sixteen enumerated per-line mappings — whether
it starts with the known `'U'`/`'S'` dispatch characters or with any other
character — is returned as its own unstyled passthrough by both copies of
`colorize_line`. -/
theorem colorize_line_unmapped (l : String) (h : l ∉ mappedLabels) :
    colorize_line l = l ∧ colorize_line_main l = l := by
  constructor
  · simp only [colorize_line]
    split_ifs
    · exact colorized_ubahn_unmapped l h
    · exact colorize_sbahn_unmapped l h
    · rfl
  · simp only [colorize_line_main]
    split_ifs
    · exact colorized_ubahn_main_unmapped l h
    · exact colorize_sbahn_main_unmapped l h
    · rfl

/-- Witness for C5 at the concrete unmapped underground label `"U9"`. -/
theorem colorize_line_unmapped_witness :
    ("U9" : String) ∉ mappedLabels ∧ colorize_line "U9" = "U9" ∧
    colorize_line_main "U9" = "U9" :=
  ⟨by decide, (colorize_line_unmapped "U9" (by decide)).1,
    (colorize_line_unmapped "U9" (by decide)).2⟩

/-- C6: filtering notification rows with an absent needle and with the empty
needle leaves the rows unchanged; a non-empty needle keeps exactly the rows
whose rendered `lines` field contains it as a case-insensitive substring, in the
original order (the filtered list is a sublist); and the spec's end-to-end
scenario — rows with lines "U6", "S8", "U6, S8" filtered by "s8" — yields the
second and third rows in order. -/
theorem filter_notifications_spec :
    (∀ entries, filter_notifications none entries = entries) ∧
    (∀ entries, filter_notifications (some "") entries = entries) ∧
    (∀ (f : String) (entries : List NotificationsTableEntry) (e : NotificationsTableEntry),
      e ∈ filter_notifications (some f) entries ↔
        e ∈ entries ∧
          substringOf (toLowerString f).data (toLowerString e.lines).data = true) ∧
    (∀ (f : String) (entries : List NotificationsTableEntry),
      List.Sublist (filter_notifications (some f) entries) entries) ∧
    filter_notifications (some "s8")
        [⟨"U6", "", ""⟩, ⟨"S8", "", ""⟩, ⟨"U6, S8", "", ""⟩] =
      [⟨"S8", "", ""⟩, ⟨"U6, S8", "", ""⟩] := by
  refine ⟨fun entries => rfl, ?_, ?_, ?_, by decide⟩
  · intro entries
    simp only [filter_notifications]
    apply List.filter_eq_self.mpr
    intro a _
    have h : (toLowerString "").data = [] := rfl
    rw [h, substringOf_nil]
  · intro f entries e
    exact List.mem_filter
  · intro f entries
    exact List.filter_sublist entries

/-- C7: the departures request URL contains `globalId={id}`, `limit=10` and the
fixed transport-type whitelist, but the offset key is misspelled
`offestInMinutes` in src/mvg-api/src/departures.rs, so the URL does not contain
the `offsetInMinutes` key the interface specifies. -/
theorem departures_url_key_misspelled :
    substringOf "globalId=de:09162:6".data (departures_url "de:09162:6" 5).data = true ∧
    substringOf "&limit=10&".data (departures_url "de:09162:6" 5).data = true ∧
    substringOf "transportTypes=UBAHN,REGIONAL_BUS,BUS,TRAM,SBAHN,SCHIFF".data
      (departures_url "de:09162:6" 5).data = true ∧
    substringOf "offestInMinutes=5".data (departures_url "de:09162:6" 5).data = true ∧
    substringOf "offsetInMinutes".data (departures_url "de:09162:6" 5).data = false := by
  refine ⟨by decide, by decide, by decide, by decide, by decide⟩

/-- C8: a connection decoded with an empty `parts` list reaches the route
projection (the serde model imposes no non-emptiness check) and the projection's
`parts[0]` indexing panics — modelled as `none` — instead of surfacing the
`DecodeFailure` the spec requires (which the spec-modelled checked decoder
produces). -/
theorem empty_parts_connection_panics :
    decode_connection_checked [] = Except.error "DecodeFailure" ∧
    route_table_entry sample_now { parts := [] } = none :=
  ⟨rfl, rfl⟩

/-- C9 counterexample: the two copies of `colorize_line` do not agree on every
label — on `"S8"` the colorize.rs copy renders a uniform badge while the main.rs
copy renders a two-tone split. -/
theorem colorize_line_s8_differs : colorize_line "S8" ≠ colorize_line_main "S8" := by
  decide

/-- C9 (amended): the two copies of `colorize_line` return the same output
string for every input label except `"S8"`. -/
theorem colorize_line_agree_except_s8 (l : String) (h : l ≠ "S8") :
    colorize_line l = colorize_line_main l := by
  simp only [colorize_line, colorize_line_main]
  split_ifs
  · exact colorized_ubahn_eq_main l
  · exact colorize_sbahn_eq_main l h
  · rfl

/-- Witness for C9 (amended) at the concrete label `"S1"`. -/
theorem colorize_line_agree_except_s8_witness :
    ("S1" : String) ≠ "S8" ∧ colorize_line "S1" = colorize_line_main "S1" :=
  ⟨by decide, colorize_line_agree_except_s8 "S1" (by decide)⟩

/-- C10: both copies of `colorize_line` are total.  With every char-iterator
`unwrap` modelled as a fallible list lookup, the instrumented versions return
`some` of the straight-line rendering for every input string — the unwraps are
reached only in the `"U7"` / `"U8"` / `"S8"` branches, whose labels have two
characters, so no input can make the renderer panic. -/
theorem colorize_line_opt_total (line : String) :
    colorize_line_opt line = some (colorize_line line) ∧
    colorize_line_main_opt line = some (colorize_line_main line) := by
  constructor
  · simp only [colorize_line_opt, colorize_line]
    split_ifs
    · exact colorized_ubahn_opt_eq line
    · exact colorize_sbahn_opt_eq line
    · rfl
  · simp only [colorize_line_main_opt, colorize_line_main]
    split_ifs
    · exact (colorized_ubahn_opt_eq line).trans
        (congrArg some (colorized_ubahn_eq_main line))
    · exact colorize_sbahn_main_opt_eq line
    · rfl

end MvgCli
